import Mathlib

/-!
A shallow embedding, in Lean 4, of the chat-orchestration core of the
sec-insights backend: `app/chat/engine.py` and `app/chat/messaging.py`.
Pure functions of the source become Lean functions; Python exceptions become
`Except`; Python dicts become association lists with overwrite-on-insert;
the cooperative async scheduling of the streaming dispatcher becomes an
explicit closure-point parameter.  External collaborator behaviour
(llama_index storage loading, the api tool factory, the db enums) is modelled
from the specification where the repository file is not part of the source
tree; each such definition says so in its doc comment.
-/

/-! ## Python string semantics -/

/-- The whitespace characters stripped by Python str.strip (the ASCII core of
Python whitespace: space, tab, newline, carriage return, vertical tab, form
feed). -/
def isPySpace (c : Char) : Bool :=
  c = ' ' || c = '\t' || c = '\n' || c = '\r' || c = '\x0b' || c = '\x0c'

/-- Model of Python str.strip(): remove leading and trailing whitespace. -/
def pyStrip (s : String) : String :=
  String.mk (((s.data.dropWhile isPySpace).reverse.dropWhile isPySpace).reverse)

/-- Decimal value of a digit list. -/
def digitsToNat (ds : List Char) : Nat :=
  ds.foldl (fun n c => 10 * n + (c.toNat - 48)) 0

/-- Model of Python int() applied to a string: optional surrounding whitespace,
an optional sign, then one or more decimal digits; none when the string is not
a valid integer literal (ValueError). -/
def pyIntOfString (s : String) : Option Int :=
  let core : List Char → Option Int := fun ds =>
    if ds ≠ [] ∧ ds.all Char.isDigit then some (digitsToNat ds) else none
  match (pyStrip s).data with
  | '-' :: rest => (core rest).map (fun n => -n)
  | '+' :: rest => core rest
  | t => core t

/-! ## Python dict semantics (association lists with overwrite) -/

/-- Model of the Python dict assignment d[k] = v: overwrite the binding in
place when the key is present, append it otherwise. -/
def pyDictInsert {β : Type} (d : List (String × β)) (k : String) (v : β) :
    List (String × β) :=
  if d.any (fun p => p.1 == k) then
    d.map (fun p => if p.1 == k then (k, v) else p)
  else d ++ [(k, v)]

/-- Model of Python dict(pairs) (and of dict(zip(ks, vs))): insert the pairs
left to right. -/
def pyDictOfPairs {β : Type} (pairs : List (String × β)) : List (String × β) :=
  pairs.foldl (fun d p => pyDictInsert d p.1 p.2) []

/-- The keys of a modelled dict, in insertion order. -/
def pyDictKeys {β : Type} (d : List (String × β)) : List String :=
  d.map Prod.fst

/-- Model of Python d[k] / d.get(k): the first binding of k. -/
def pyDictGet {β : Type} (d : List (String × β)) (k : String) : Option β :=
  (d.find? (fun p => p.1 == k)).map Prod.snd

/-! ## Python exceptions appearing in the embedded code -/

/-- The Python exception kinds that the embedded code raises or handles. -/
inductive PyErr
  | valueError
  | typeError
  | fileNotFoundError
  | keyError
  | closedResourceError
  deriving DecidableEq, Repr

/-- All-or-nothing effectful map, the evaluation order of a Python loop or
comprehension that can raise: the first error aborts the whole traversal. -/
def mapExcept {α β : Type} (f : α → Except PyErr β) : List α → Except PyErr (List β)
  | [] => Except.ok []
  | a :: as =>
    match f a with
    | Except.error e => Except.error e
    | Except.ok b =>
      match mapExcept f as with
      | Except.error e => Except.error e
      | Except.ok bs => Except.ok (b :: bs)

/-! ## app/chat/engine.py : data model -/

/-- app.schema.SecDocumentMetadata, restricted to the fields that
build_description_for_document reads (doc_type.value is kept as the rendered
string). -/
structure SecDocumentMetadata where
  company_name : String
  company_ticker : String
  doc_type : String
  year : Int
  quarter : Option Int
  deriving DecidableEq, Repr

/-- app.schema.Document as read by the chat engine: str(document.id) is
modelled by the id field already being the id string; sec_metadata = some m
models DocumentMetadataKeysEnum.SEC_DOCUMENT being a key of metadata_map. -/
structure DocumentSchema where
  id : String
  url : String
  sec_metadata : Option SecDocumentMetadata
  deriving DecidableEq, Repr

/-- app.chat.engine.build_description_for_document.  Python renders
`year Q quarter` only when quarter is truthy: None and 0 both fall back to the
bare year. -/
def build_description_for_document (document : DocumentSchema) : String :=
  match document.sec_metadata with
  | some m =>
    let time_period :=
      match m.quarter with
      | some q => if q = 0 then toString m.year else toString m.year ++ " Q" ++ toString q
      | none => toString m.year
    "A SEC " ++ m.doc_type ++ " filing describing the financials of " ++
      m.company_name ++ " (" ++ m.company_ticker ++ ") for the " ++
      time_period ++ " time period."
  | none =>
    "A document containing useful information that the user pre-selected to discuss with the assistant."

/-- Modelled from the spec: llama_index VectorStoreIndex is not part of the
source tree; the code only sets and relies on its index id (set_index_id /
load by id), so the embedding keeps the id plus an opaque payload. -/
structure VectorStoreIndex where
  index_id : String
  payload : Nat
  deriving DecidableEq, Repr

/-- Modelled from the spec: the durable storage interface
`load_indices(context, ids) -> sequence of Index | value-error-on-total-failure`
(llama_index load_indices_from_storage is not part of the source tree).  One
index is returned per requested id, and a missing id raises ValueError, which
the caller treats as total load failure. -/
def load_indices_from_storage (store : List (String × VectorStoreIndex))
    (index_ids : List String) : Except PyErr (List VectorStoreIndex) :=
  mapExcept (fun i =>
    match pyDictGet store i with
    | some idx => Except.ok idx
    | none => Except.error PyErr.valueError) index_ids

/-- app.chat.engine.build_doc_id_to_index_map.  ctxLoad models the outcome of
get_storage_context: ok sc is a loaded storage context holding the persisted
indices keyed by index id, and error models FileNotFoundError, on which the
code builds a fresh empty context and persists it (so index loading then sees
an empty store).  buildIndex models the opaque payload produced by
VectorStoreIndex.from_documents on the full-rebuild path; the code then calls
set_index_id(str(doc.id)), so the rebuilt index carries the document id. -/
def build_doc_id_to_index_map
    (ctxLoad : Except PyErr (List (String × VectorStoreIndex)))
    (buildIndex : DocumentSchema → Nat)
    (documents : List DocumentSchema) : List (String × VectorStoreIndex) :=
  let loaded : Except PyErr (List (String × VectorStoreIndex)) :=
    let storage_context :=
      match ctxLoad with
      | Except.ok sc => sc
      | Except.error _ => []
    let index_ids := documents.map (fun d => d.id)
    match load_indices_from_storage storage_context index_ids with
    | Except.error e => Except.error e
    | Except.ok indices => Except.ok (pyDictOfPairs (index_ids.zip indices))
  match loaded with
  | Except.ok d => d
  | Except.error _ =>
    documents.foldl
      (fun d doc => pyDictInsert d doc.id (VectorStoreIndex.mk doc.id (buildIndex doc)))
      []

/-! ## app/chat/engine.py : chat history -/

/-- app.models.db.MessageRoleEnum (modelled from the spec: the db models file
is not part of the source tree; the spec fixes the roles user/assistant). -/
inductive MessageRoleEnum
  | user
  | assistant
  deriving DecidableEq, Repr

/-- app.models.db.MessageStatusEnum (modelled from the spec: success, failure,
pending). -/
inductive MessageStatusEnum
  | PENDING
  | SUCCESS
  | ERROR
  deriving DecidableEq, Repr

/-- The two llama_index MessageRole values used by get_chat_history. -/
inductive MessageRole
  | USER
  | ASSISTANT
  deriving DecidableEq, Repr

/-- app.schema.Message as read by get_chat_history; created_at is an abstract
timestamp ordered as Nat. -/
structure MessageSchema where
  role : MessageRoleEnum
  content : String
  status : MessageStatusEnum
  created_at : Nat
  deriving DecidableEq, Repr

/-- llama_index ChatMessage as built by get_chat_history. -/
structure ChatMessage where
  content : String
  role : MessageRole
  deriving DecidableEq, Repr

/-- The filter of get_chat_history: m.content.strip() truthy and
m.status == MessageStatusEnum.SUCCESS. -/
def keepMessage (m : MessageSchema) : Bool :=
  !(pyStrip m.content == "") && (m.status == MessageStatusEnum.SUCCESS)

/-- The element mapping of get_chat_history: assistant maps to ASSISTANT and
every other role to USER. -/
def toChatMessage (m : MessageSchema) : ChatMessage :=
  ChatMessage.mk m.content
    (if m.role = MessageRoleEnum.assistant then MessageRole.ASSISTANT else MessageRole.USER)

/-- app.chat.engine.get_chat_history: drop failed or blank messages, sort the
rest by created_at (Python sorted is a stable sort; insertion sort is the
extensionally equal stable sort over the same total preorder), then map to
ChatMessage. -/
def get_chat_history (chat_messages : List MessageSchema) : List ChatMessage :=
  let kept := chat_messages.filter keepMessage
  let sortedMsgs :=
    List.insertionSort (fun a b => a.created_at ≤ b.created_at) kept
  sortedMsgs.map toChatMessage

/-! ## app/chat/engine.py : tool construction (the slice of get_chat_engine
that the claims are about) -/

/-- A llama_index ToolMetadata: the name and description attached to a query
engine tool. -/
structure ToolMetadata where
  name : String
  description : String
  deriving DecidableEq, Repr

/-- A llama_index QueryEngineTool, reduced to its metadata (the wrapped query
engine plays no role in the naming claims). -/
structure QueryEngineTool where
  metadata : ToolMetadata
  deriving DecidableEq, Repr

/-- app.schema.Conversation as read by get_chat_engine. -/
structure Conversation where
  documents : List DocumentSchema
  messages : List MessageSchema
  deriving DecidableEq, Repr

/-- Modelled from the spec: app.chat.tools.get_api_query_engine_tool is not
part of the source tree.  The spec fixes its naming scheme — document identity
is the canonical tool name across both the qualitative and quantitative tool
sets — and that its description is a prose sentence embedding the SEC period
and ticker. -/
def get_api_query_engine_tool (doc : DocumentSchema) : QueryEngineTool :=
  let description :=
    match doc.sec_metadata with
    | some m =>
      let time_period :=
        match m.quarter with
        | some q => if q = 0 then toString m.year else toString m.year ++ " Q" ++ toString q
        | none => toString m.year
      "A query engine for structured financial data of " ++ m.company_ticker ++
        " for the " ++ time_period ++ " time period."
    | none => "A query engine for structured financial data."
  QueryEngineTool.mk (ToolMetadata.mk doc.id description)

/-- The tool-construction slice of app.chat.engine.get_chat_engine: one
citation query-engine tool per entry of the index map, named by the map key
and described through the id_to_doc lookup (Python raises KeyError when the id
is absent from id_to_doc), plus one api query engine tool per document whose
metadata_map carries the SEC key. -/
def get_chat_engine_tools
    (ctxLoad : Except PyErr (List (String × VectorStoreIndex)))
    (buildIndex : DocumentSchema → Nat)
    (conversation : Conversation) :
    Except PyErr (List QueryEngineTool × List QueryEngineTool) :=
  let doc_id_to_index := build_doc_id_to_index_map ctxLoad buildIndex conversation.documents
  let id_to_doc := pyDictOfPairs (conversation.documents.map (fun d => (d.id, d)))
  match mapExcept (fun p =>
      match pyDictGet id_to_doc p.1 with
      | some doc =>
        Except.ok (QueryEngineTool.mk (ToolMetadata.mk p.1 (build_description_for_document doc)))
      | none => Except.error PyErr.keyError) doc_id_to_index with
  | Except.error e => Except.error e
  | Except.ok vector_query_engine_tools =>
    let api_query_engine_tools :=
      (conversation.documents.filter (fun d => d.sec_metadata.isSome)).map
        get_api_query_engine_tool
    Except.ok (vector_query_engine_tools, api_query_engine_tools)

/-! ## app/chat/messaging.py : data model -/

/-- llama_index CBEventType, the event kinds dispatched to the callback
handler. -/
inductive CBEventType
  | CHUNKING
  | NODE_PARSING
  | EMBEDDING
  | LLM
  | QUERY
  | RETRIEVE
  | SYNTHESIZE
  | TREE
  | SUB_QUESTION
  | TEMPLATING
  | FUNCTION_CALL
  | RERANKING
  | EXCEPTION
  | AGENT_STEP
  deriving DecidableEq, Repr

/-- app.models.db.MessageSubProcessSourceEnum (modelled from the spec: the db
models file is not part of the source tree; it has one member per CBEventType
name plus CONSTRUCTED_QUERY_ENGINE). -/
inductive MessageSubProcessSourceEnum
  | CHUNKING
  | NODE_PARSING
  | EMBEDDING
  | LLM
  | QUERY
  | RETRIEVE
  | SYNTHESIZE
  | TREE
  | SUB_QUESTION
  | TEMPLATING
  | FUNCTION_CALL
  | RERANKING
  | EXCEPTION
  | AGENT_STEP
  | CONSTRUCTED_QUERY_ENGINE
  deriving DecidableEq, Repr

/-- The name-indexed enum lookup MessageSubProcessSourceEnum[event_type.name]
of async_on_event: every CBEventType member has the same-named db enum
member. -/
def sourceOfEventType : CBEventType → MessageSubProcessSourceEnum
  | CBEventType.CHUNKING => MessageSubProcessSourceEnum.CHUNKING
  | CBEventType.NODE_PARSING => MessageSubProcessSourceEnum.NODE_PARSING
  | CBEventType.EMBEDDING => MessageSubProcessSourceEnum.EMBEDDING
  | CBEventType.LLM => MessageSubProcessSourceEnum.LLM
  | CBEventType.QUERY => MessageSubProcessSourceEnum.QUERY
  | CBEventType.RETRIEVE => MessageSubProcessSourceEnum.RETRIEVE
  | CBEventType.SYNTHESIZE => MessageSubProcessSourceEnum.SYNTHESIZE
  | CBEventType.TREE => MessageSubProcessSourceEnum.TREE
  | CBEventType.SUB_QUESTION => MessageSubProcessSourceEnum.SUB_QUESTION
  | CBEventType.TEMPLATING => MessageSubProcessSourceEnum.TEMPLATING
  | CBEventType.FUNCTION_CALL => MessageSubProcessSourceEnum.FUNCTION_CALL
  | CBEventType.RERANKING => MessageSubProcessSourceEnum.RERANKING
  | CBEventType.EXCEPTION => MessageSubProcessSourceEnum.EXCEPTION
  | CBEventType.AGENT_STEP => MessageSubProcessSourceEnum.AGENT_STEP

/-- A value of a source node's metadata dict: a string, or some non-string
object on which int() raises TypeError. -/
inductive MetaVal
  | vStr (s : String)
  | vOther
  deriving DecidableEq, Repr

/-- Python int() applied to a metadata value: parse the string form, TypeError
(modelled as none, caught together with ValueError) otherwise. -/
def pyIntOfMetaVal : MetaVal → Option Int
  | MetaVal.vStr s => pyIntOfString s
  | MetaVal.vOther => none

/-- The .node of a llama_index NodeWithScore as accessed by the citation loop:
its metadata dict and its optional text attribute (none models
hasattr(node.node, "text") being false). -/
structure NodeInner where
  metadata : List (String × MetaVal)
  text : Option String
  deriving DecidableEq, Repr

/-- A retrieved source node; node = none models the guard
hasattr(node, "node") and hasattr(node.node, "metadata") failing. -/
structure SourceNode where
  node : Option NodeInner
  deriving DecidableEq, Repr

/-- The payload value under EventPayload.RESPONSE: source_nodes = none models
hasattr(response, "source_nodes") being false and response = none models
hasattr(response, "response") being false; the response attribute is rendered
with str(...), so it is kept as a string. -/
structure ResponseVal where
  source_nodes : Option (List SourceNode)
  response : Option String
  deriving DecidableEq, Repr

/-- llama_index SubQuestionAnswerPair as consumed by
QuestionAnswerPair.from_sub_question_answer_pair: the sub question text and
its optional answer. -/
structure SubQuestionAnswerPair where
  sub_q : String
  answer : Option String
  deriving DecidableEq, Repr

/-- A raw event payload dict as inspected by get_metadata_from_event: each
field is some v exactly when the corresponding EventPayload key is present.
function_output = some none models the key being present with a non-str value
(the isinstance check then fails). -/
structure Payload where
  response : Option ResponseVal
  sub_question : Option SubQuestionAnswerPair
  function_output : Option (Option String)
  deriving DecidableEq, Repr

/-- A citation dict built by the extraction loop. -/
structure Citation where
  document_id : MetaVal
  page_number : Int
  text : String
  deriving DecidableEq, Repr

/-- One element of the synthesized "sub_questions" list value. -/
structure SubQuestionItem where
  question : String
  answer : String
  citations : List Citation
  deriving DecidableEq, Repr

/-- Modelled from the spec: app.schema.QuestionAnswerPair (the schema file is
not part of the source tree) — the structured question/answer record built
from a SubQuestionAnswerPair payload. -/
structure QuestionAnswerPair where
  question : String
  answer : Option String
  deriving DecidableEq, Repr

/-- A value of the metadata map: either the synthesized "sub_questions" list
(citation/function-call records) or the structured sub-question pair. -/
inductive MetaEntry
  | subQuestionsList (items : List SubQuestionItem)
  | subQuestionPair (qa : QuestionAnswerPair)
  deriving DecidableEq, Repr

/-- The fixed placeholder question paired with synthesized citation and
function-call records. -/
def placeholderQuestion : String := "What are the main business focus areas?"

/-- Modelled from the spec: SubProcessMetadataKeysEnum.SUB_QUESTION.value (the
schema file is not part of the source tree; the key names the sub-question
event kind). -/
def subQuestionKey : String := "sub_question"

/-! ## app/chat/messaging.py : event translation -/

/-- The per-node body of the citation-extraction loop of
ChatCallbackHandler.get_metadata_from_event: guarded by hasattr on .node and
.node.metadata, by membership of db_document_id and page_label in the
metadata dict, and by int(page_label) not raising (ValueError and TypeError
are caught and skip the node); the excerpt is node.node.text[:200], or ""
when the node has no text attribute. -/
def citationsOfNode (node : SourceNode) : List Citation :=
  match node.node with
  | none => []
  | some inner =>
    match pyDictGet inner.metadata "db_document_id",
          pyDictGet inner.metadata "page_label" with
    | some docId, some label =>
      match pyIntOfMetaVal label with
      | some p => [Citation.mk docId p ((inner.text.getD "").take 200)]
      | none => []
    | _, _ => []

/-- The citation-extraction loop: one pass over response.source_nodes,
appending each node's citations. -/
def get_citations : List SourceNode → List Citation
  | [] => []
  | node :: rest => citationsOfNode node ++ get_citations rest

/-- The RESPONSE branch of get_metadata_from_event: when the payload value has
both source_nodes and response attributes, extract citations, and when any
were extracted emit the synthesized sub_questions record pairing the fixed
placeholder question with str(response.response) and the citation list. -/
def responseBranchResult (response : ResponseVal) : List (String × MetaEntry) :=
  match response.source_nodes, response.response with
  | some nodes, some resp =>
    let citations := get_citations nodes
    if citations = [] then []
    else
      [("sub_questions",
        MetaEntry.subQuestionsList [SubQuestionItem.mk placeholderQuestion resp citations])]
  | _, _ => []

/-- The if/elif classification chain of get_metadata_from_event applied to a
present (non-None) payload: the RESPONSE key takes the first branch whether or
not citations come out of it; otherwise a SUB_QUESTION event with a
sub-question payload yields the structured pair; otherwise a FUNCTION_CALL
event with a function-output payload that is a str yields the synthesized
record with an empty citation list; otherwise the map stays empty. -/
def metadataMapOf (event_type : CBEventType) (p : Payload) :
    List (String × MetaEntry) :=
  if p.response.isSome then
    match p.response with
    | some response => responseBranchResult response
    | none => []
  else if event_type = CBEventType.SUB_QUESTION ∧ p.sub_question.isSome then
    match p.sub_question with
    | some sub_q =>
      [(subQuestionKey,
        MetaEntry.subQuestionPair (QuestionAnswerPair.mk sub_q.sub_q sub_q.answer))]
    | none => []
  else if event_type = CBEventType.FUNCTION_CALL ∧ p.function_output.isSome then
    match p.function_output with
    | some (some response_str) =>
      [("sub_questions",
        MetaEntry.subQuestionsList [SubQuestionItem.mk placeholderQuestion response_str []])]
    | _ => []
  else []

/-- ChatCallbackHandler.get_metadata_from_event.  payload = none reproduces
the declared default payload=None of on_event_start / on_event_end: the very
first test of the body, EventPayload.RESPONSE in payload, raises TypeError on
None.  The is_start_event argument is received but never consulted by the
classification. -/
def get_metadata_from_event (event_type : CBEventType) (payload : Option Payload)
    (is_start_event : Bool) : Except PyErr (List (String × MetaEntry)) :=
  match payload with
  | none => Except.error PyErr.typeError
  | some p =>
    let _ := is_start_event
    Except.ok (metadataMapOf event_type p)

/-- The StreamedMessageSubProcess record sent on the channel. -/
structure StreamedMessageSubProcess where
  source : MessageSubProcessSourceEnum
  has_ended : Bool
  event_id : String
  metadata_map : Option (List (String × MetaEntry))
  deriving DecidableEq, Repr

/-- What became of one async_on_event task's send. -/
inductive SendOutcome
  | sent (record : StreamedMessageSubProcess)
  | droppedClosed
  | droppedException
  deriving DecidableEq, Repr

/-- ChatCallbackHandler.async_on_event.  closedAtCheck is the channel state at
the send_chan._closed test and closedAtSend at the send itself; they differ
when the consumer closes in between, in which case the send raises
ClosedResourceError, which the except clause catches and logs
(droppedException).  metadata_map or None maps the empty dict to None.  A
none payload propagates the TypeError of get_metadata_from_event: the spawned
task dies and nothing is sent. -/
def async_on_event (event_type : CBEventType) (payload : Option Payload)
    (event_id : String) (is_start_event : Bool)
    (closedAtCheck closedAtSend : Bool) : Except PyErr SendOutcome :=
  match get_metadata_from_event event_type payload is_start_event with
  | Except.error e => Except.error e
  | Except.ok m =>
    let metadata_map := if m = [] then none else some m
    let source := sourceOfEventType event_type
    if closedAtCheck then Except.ok SendOutcome.droppedClosed
    else if closedAtSend then Except.ok SendOutcome.droppedException
    else
      Except.ok (SendOutcome.sent
        (StreamedMessageSubProcess.mk source (!is_start_event) event_id metadata_map))

/-! ## app/chat/messaging.py : the streaming dispatcher of handle_chat_message -/

/-- The StreamedMessage record: a full snapshot of the answer text so far. -/
structure StreamedMessage where
  content : String
  deriving DecidableEq, Repr

/-- The fixed fallback content sent when the accumulated answer is blank. -/
def fallbackContent : String :=
  "Sorry, I either wasn\x27t able to understand your question or I don\x27t have an answer for it."

/-- How the token-consumption stretch of handle_chat_message ended. -/
inductive DispatchOutcome
  | returnedEarly
  | completed
  | raisedClosed
  deriving DecidableEq, Repr

/-- The messages delivered on the channel by the dispatcher and how it
ended. -/
structure DispatchResult where
  sent : List StreamedMessage
  outcome : DispatchOutcome
  deriving DecidableEq, Repr

/-- Concatenation of a token list, the value of response_str after consuming
those tokens. -/
def concatTokens : List String → String
  | [] => ""
  | t :: rest => t ++ concatTokens rest

/-- The token loop and fallback of handle_chat_message (source lines 191-206)
under the cooperative scheduling model of the spec: the single consumer task
can run — and close the channel — only while this coroutine is suspended, and
its suspension points are the generator awaits of the async-for.  closeAt =
some k closes the channel at the k-th generator await (0-based; the await that
terminates the loop has index tokens.length); closeAt = none never closes it.
Each iteration awaits the generator, appends the token to acc, returns early
when send_chan._closed is set, and otherwise sends the full accumulated
snapshot.  After the loop, a blank accumulator triggers the fallback send,
which is guarded by no _closed check and no except clause, so on a closed
channel it raises ClosedResourceError out of handle_chat_message. -/
def runStreamAux (acc : String) (tokens : List String) (closeAt : Option Nat)
    (i : Nat) (sent : List StreamedMessage) : DispatchResult :=
  match tokens with
  | [] =>
    if pyStrip acc = "" then
      if closeAt = some i then DispatchResult.mk sent DispatchOutcome.raisedClosed
      else DispatchResult.mk (sent ++ [StreamedMessage.mk fallbackContent])
        DispatchOutcome.completed
    else DispatchResult.mk sent DispatchOutcome.completed
  | t :: rest =>
    let acc2 := acc ++ t
    if closeAt = some i then DispatchResult.mk sent DispatchOutcome.returnedEarly
    else runStreamAux acc2 rest closeAt (i + 1) (sent ++ [StreamedMessage.mk acc2])

/-- The dispatcher run on a full token stream, starting from the empty
accumulator. -/
def runStream (tokens : List String) (closeAt : Option Nat) : DispatchResult :=
  runStreamAux "" tokens closeAt 0 []

/-- The snapshots sent for a token stream that is consumed to position k: the
j-th send carries the concatenation of the first j+1 tokens. -/
def snapshotsUpTo (tokens : List String) (k : Nat) : List StreamedMessage :=
  (List.range k).map (fun j => StreamedMessage.mk (concatTokens (tokens.take (j + 1))))

/-! ## Concrete instances used by counterexamples and witnesses -/

/-- Two retained messages sharing a creation timestamp (tie case of C4). -/
def tieMsgA : MessageSchema :=
  MessageSchema.mk MessageRoleEnum.user "a" MessageStatusEnum.SUCCESS 5

/-- Second message of the C4 tie pair. -/
def tieMsgB : MessageSchema :=
  MessageSchema.mk MessageRoleEnum.assistant "b" MessageStatusEnum.SUCCESS 5

/-- Two retained messages with distinct creation timestamps. -/
def distMsgA : MessageSchema :=
  MessageSchema.mk MessageRoleEnum.user "a" MessageStatusEnum.SUCCESS 1

/-- Second message of the distinct-timestamp pair. -/
def distMsgB : MessageSchema :=
  MessageSchema.mk MessageRoleEnum.assistant "b" MessageStatusEnum.SUCCESS 2

/-- A payload whose sub-question key is present (as delivered to a
SUB_QUESTION event). -/
def c5SubQPayload : Payload :=
  Payload.mk none
    (some (SubQuestionAnswerPair.mk "What was revenue?" (some "Revenue was X.")))
    none

/-- A source node carrying both identity fields and a numeric page label. -/
def c6Node : SourceNode :=
  SourceNode.mk (some (NodeInner.mk
    [("db_document_id", MetaVal.vStr "doc-1"), ("page_label", MetaVal.vStr "3")]
    (some "Relevant excerpt.")))

/-- A payload carrying a citation-bearing response object while also matching
the sub-question condition. -/
def c6Payload : Payload :=
  Payload.mk
    (some (ResponseVal.mk (some [c6Node]) (some "An answer.")))
    (some (SubQuestionAnswerPair.mk "Sub question?" (some "Sub answer.")))
    none

/-- A source node with document identity, page label "3" and text. -/
def c7GoodNode : SourceNode :=
  SourceNode.mk (some (NodeInner.mk
    [("db_document_id", MetaVal.vStr "doc-7"), ("page_label", MetaVal.vStr "3")]
    (some "Node text.")))

/-- A source node missing the page-label field. -/
def c7BadNode : SourceNode :=
  SourceNode.mk (some (NodeInner.mk
    [("db_document_id", MetaVal.vStr "doc-7")]
    (some "No page label.")))

/-- An SEC filing document for the tool-naming witness. -/
def c9DocA : DocumentSchema :=
  DocumentSchema.mk "doc-a" "http://example.com/a.pdf"
    (some (SecDocumentMetadata.mk "Acme Corp" "ACME" "10-Q" 2023 (some 1)))

/-- A plain document for the tool-naming witness. -/
def c9DocB : DocumentSchema :=
  DocumentSchema.mk "doc-b" "http://example.com/b.pdf" none

/-- A conversation over the two witness documents. -/
def c9Conversation : Conversation :=
  Conversation.mk [c9DocA, c9DocB] []

/-- A storage-context load outcome forcing the full-rebuild path. -/
def c9CtxLoad : Except PyErr (List (String × VectorStoreIndex)) :=
  Except.error PyErr.fileNotFoundError

/-- An opaque index builder for the witness. -/
def c9BuildIndex : DocumentSchema → Nat := fun _ => 0

/-- The tool pair built for the witness conversation. -/
def c9Tools : List QueryEngineTool × List QueryEngineTool :=
  match get_chat_engine_tools c9CtxLoad c9BuildIndex c9Conversation with
  | Except.ok pair => pair
  | Except.error _ => ([], [])

/-- The record that async_on_event sends for a start SUB_QUESTION event whose
payload carries the sub-question key. -/
def c5Record : StreamedMessageSubProcess :=
  StreamedMessageSubProcess.mk MessageSubProcessSourceEnum.SUB_QUESTION false "e5"
    (some [(subQuestionKey, MetaEntry.subQuestionPair
      (QuestionAnswerPair.mk "What was revenue?" (some "Revenue was X.")))])

/-! ## Helper lemmas on the Python dict model -/

theorem pyDictKeys_pyDictInsert {β : Type} (d : List (String × β)) (k : String) (v : β) :
    pyDictKeys (pyDictInsert d k v)
      = if d.any (fun p => p.1 == k) then pyDictKeys d else pyDictKeys d ++ [k] := by
  unfold pyDictInsert pyDictKeys
  by_cases h : d.any (fun p => p.1 == k) = true
  · rw [if_pos h, if_pos h, List.map_map]
    apply List.map_congr_left
    intro p _
    by_cases hk : p.1 = k
    · simp [hk]
    · simp [hk]
  · rw [if_neg h, if_neg h]
    simp

theorem pyDictKeys_toFinset_pyDictInsert {β : Type} (d : List (String × β)) (k : String) (v : β) :
    (pyDictKeys (pyDictInsert d k v)).toFinset = insert k (pyDictKeys d).toFinset := by
  rw [pyDictKeys_pyDictInsert]
  by_cases h : d.any (fun p => p.1 == k) = true
  · rw [if_pos h]
    rcases List.any_eq_true.mp h with ⟨p, hp, hk⟩
    have hmem : k ∈ pyDictKeys d := by
      have := List.mem_map_of_mem Prod.fst hp
      rwa [beq_iff_eq.mp hk] at this
    rw [Finset.insert_eq_self.mpr (List.mem_toFinset.mpr hmem)]
  · rw [if_neg h]
    ext a
    simp [or_comm]

theorem pyDictKeys_nodup_pyDictInsert {β : Type} (d : List (String × β)) (k : String) (v : β)
    (h : (pyDictKeys d).Nodup) : (pyDictKeys (pyDictInsert d k v)).Nodup := by
  rw [pyDictKeys_pyDictInsert]
  by_cases hc : d.any (fun p => p.1 == k) = true
  · rwa [if_pos hc]
  · rw [if_neg hc]
    have hk : k ∉ pyDictKeys d := by
      intro hmem
      rcases List.mem_map.mp hmem with ⟨p, hp, hpk⟩
      exact hc (List.any_eq_true.mpr ⟨p, hp, beq_iff_eq.mpr hpk⟩)
    simp [List.nodup_append, h, hk]

theorem pyDictKeys_toFinset_foldl {α β : Type} (key : α → String) (val : α → β) :
    ∀ (l : List α) (d : List (String × β)),
      (pyDictKeys (l.foldl (fun d a => pyDictInsert d (key a) (val a)) d)).toFinset
        = (pyDictKeys d).toFinset ∪ (l.map key).toFinset
  | [], d => by simp
  | a :: l, d => by
    rw [List.foldl_cons,
      pyDictKeys_toFinset_foldl key val l (pyDictInsert d (key a) (val a)),
      pyDictKeys_toFinset_pyDictInsert]
    ext x
    simp

theorem pyDictKeys_nodup_foldl {α β : Type} (key : α → String) (val : α → β) :
    ∀ (l : List α) (d : List (String × β)), (pyDictKeys d).Nodup →
      (pyDictKeys (l.foldl (fun d a => pyDictInsert d (key a) (val a)) d)).Nodup
  | [], _, h => h
  | _ :: l, _, h =>
    pyDictKeys_nodup_foldl key val l _ (pyDictKeys_nodup_pyDictInsert _ _ _ h)

theorem pyDictKeys_toFinset_pyDictOfPairs {β : Type} (pairs : List (String × β)) :
    (pyDictKeys (pyDictOfPairs pairs)).toFinset = (pairs.map Prod.fst).toFinset := by
  have := pyDictKeys_toFinset_foldl (Prod.fst (β := β)) Prod.snd pairs []
  simpa [pyDictOfPairs, pyDictKeys] using this

theorem mapExcept_ok_length {α β : Type} (f : α → Except PyErr β) :
    ∀ (l : List α) (ys : List β), mapExcept f l = Except.ok ys → ys.length = l.length
  | [], ys, h => by
    simp only [mapExcept] at h
    cases h
    rfl
  | a :: l, ys, h => by
    unfold mapExcept at h
    cases hf : f a with
    | error e => rw [hf] at h; cases h
    | ok b =>
      rw [hf] at h
      cases hm : mapExcept f l with
      | error e => rw [hm] at h; cases h
      | ok bs =>
        rw [hm] at h
        cases h
        simp [mapExcept_ok_length f l bs hm]

/-! ## C1 : build_doc_id_to_index_map key set -/

/-- C1: for every list of documents, the mapping returned by
build_doc_id_to_index_map has key set exactly the set of document id strings,
whatever the storage-context load produced (successful load of every index,
fresh-context creation after FileNotFoundError, or the full rebuild taken
after a total index-load failure). -/
theorem C1_index_map_key_set
    (ctxLoad : Except PyErr (List (String × VectorStoreIndex)))
    (buildIndex : DocumentSchema → Nat)
    (documents : List DocumentSchema) :
    (pyDictKeys (build_doc_id_to_index_map ctxLoad buildIndex documents)).toFinset
      = (documents.map (fun d => d.id)).toFinset := by
  unfold build_doc_id_to_index_map
  cases h : load_indices_from_storage
      (match ctxLoad with | Except.ok sc => sc | Except.error _ => [])
      (documents.map (fun d => d.id)) with
  | error e =>
    simp only [h]
    rw [pyDictKeys_toFinset_foldl (fun doc => doc.id)
      (fun doc => VectorStoreIndex.mk doc.id (buildIndex doc)) documents []]
    simp [pyDictKeys]
  | ok indices =>
    simp only [h]
    rw [pyDictKeys_toFinset_pyDictOfPairs, List.map_fst_zip]
    exact le_of_eq (mapExcept_ok_length _ _ _ h).symm

/-! ## C3 / C4 : get_chat_history -/

/-- C3: get_chat_history returns exactly the messages whose content is not
empty or whitespace-only and whose status is SUCCESS — a filtered-out message
never appears — arranged by creation timestamp ascending and mapped to the
two-valued role where assistant maps to ASSISTANT and every other role to
USER. -/
theorem C3_get_chat_history_spec (msgs : List MessageSchema) :
    ∃ l : List MessageSchema,
      l.Perm (msgs.filter keepMessage)
      ∧ (∀ m : MessageSchema,
           keepMessage m = true ↔ pyStrip m.content ≠ "" ∧ m.status = MessageStatusEnum.SUCCESS)
      ∧ l.Sorted (fun a b => a.created_at ≤ b.created_at)
      ∧ (∀ m : MessageSchema,
           toChatMessage m = ChatMessage.mk m.content
             (if m.role = MessageRoleEnum.assistant then MessageRole.ASSISTANT
              else MessageRole.USER))
      ∧ get_chat_history msgs = l.map toChatMessage := by
  refine ⟨List.insertionSort (fun a b => a.created_at ≤ b.created_at) (msgs.filter keepMessage),
    List.perm_insertionSort _ _, ?_, ?_, fun m => rfl, rfl⟩
  · intro m
    simp [keepMessage]
  · haveI : IsTotal MessageSchema (fun a b => a.created_at ≤ b.created_at) :=
      ⟨fun a b => Nat.le_total _ _⟩
    haveI : IsTrans MessageSchema (fun a b => a.created_at ≤ b.created_at) :=
      ⟨fun _ _ _ hab hbc => Nat.le_trans hab hbc⟩
    exact List.sorted_insertionSort _ _

/-- C4 counterexample: two retained messages with the same creation timestamp
but different contents; permuting the input permutes the output, because
Python's sort is stable and keeps tied elements in input order. -/
theorem C4_counterexample :
    [tieMsgB, tieMsgA].Perm [tieMsgA, tieMsgB]
    ∧ get_chat_history [tieMsgB, tieMsgA] ≠ get_chat_history [tieMsgA, tieMsgB] := by
  constructor
  · exact List.Perm.swap tieMsgA tieMsgB []
  · decide

/-- C4 (amended): permuting the input list never changes the output sequence
provided the retained messages have pairwise distinct creation timestamps;
with equal timestamps the stable sort keeps tied messages in input order, so
permuting them permutes the output. -/
theorem C4_amended_perm_invariance (l₁ l₂ : List MessageSchema)
    (hperm : l₁.Perm l₂)
    (hdist : (l₁.filter keepMessage).Pairwise (fun a b => a.created_at ≠ b.created_at)) :
    get_chat_history l₁ = get_chat_history l₂ := by
  have hfilter : (l₁.filter keepMessage).Perm (l₂.filter keepMessage) :=
    hperm.filter keepMessage
  have hs₁ := List.perm_insertionSort (fun a b => a.created_at ≤ b.created_at)
    (l₁.filter keepMessage)
  have hs₂ := List.perm_insertionSort (fun a b => a.created_at ≤ b.created_at)
    (l₂.filter keepMessage)
  have hss := (hs₁.trans hfilter).trans hs₂.symm
  haveI : IsTotal MessageSchema (fun a b => a.created_at ≤ b.created_at) :=
    ⟨fun a b => Nat.le_total _ _⟩
  haveI : IsTrans MessageSchema (fun a b => a.created_at ≤ b.created_at) :=
    ⟨fun _ _ _ hab hbc => Nat.le_trans hab hbc⟩
  have hsort₁ := List.sorted_insertionSort (fun a b => a.created_at ≤ b.created_at)
    (l₁.filter keepMessage)
  have hsort₂ := List.sorted_insertionSort (fun a b => a.created_at ≤ b.created_at)
    (l₂.filter keepMessage)
  have hsymm : ∀ {x y : MessageSchema},
      x.created_at ≠ y.created_at → y.created_at ≠ x.created_at :=
    fun h => Ne.symm h
  have hd₁ := (hs₁.pairwise_iff hsymm).mpr hdist
  have hd₂ := (hs₂.pairwise_iff hsymm).mpr ((hfilter.pairwise_iff hsymm).mp hdist)
  have hlt₁ := (hsort₁.and hd₁).imp
    (fun h => lt_of_le_of_ne h.1 h.2)
  have hlt₂ := (hsort₂.and hd₂).imp
    (fun h => lt_of_le_of_ne h.1 h.2)
  haveI : IsAntisymm MessageSchema (fun a b => a.created_at < b.created_at) :=
    ⟨fun _ _ h1 h2 => absurd h2 (Nat.lt_asymm h1)⟩
  have heq := List.eq_of_perm_of_sorted hss hlt₁ hlt₂
  simp only [get_chat_history]
  rw [heq]

/-- C4 witness: the amended invariance holds at a concrete permuted pair with
distinct timestamps. -/
theorem C4_amended_witness :
    [distMsgB, distMsgA].Perm [distMsgA, distMsgB]
    ∧ ([distMsgB, distMsgA].filter keepMessage).Pairwise
        (fun a b => a.created_at ≠ b.created_at)
    ∧ get_chat_history [distMsgB, distMsgA] = get_chat_history [distMsgA, distMsgB] :=
  ⟨List.Perm.swap distMsgA distMsgB [], by decide,
    C4_amended_perm_invariance [distMsgB, distMsgA] [distMsgA, distMsgB]
      (List.Perm.swap distMsgA distMsgB []) (by decide)⟩

/-! ## C5 / C6 / C7 / C10 : event translation -/

theorem responseBranchResult_length_le_one (r : ResponseVal) :
    (responseBranchResult r).length ≤ 1 := by
  unfold responseBranchResult
  cases r.source_nodes with
  | none => simp
  | some nodes =>
    cases r.response with
    | none => simp
    | some resp =>
      by_cases hc : get_citations nodes = [] <;> simp [hc]

theorem metadataMapOf_length_le_one (event_type : CBEventType) (p : Payload) :
    (metadataMapOf event_type p).length ≤ 1 := by
  by_cases h1 : p.response.isSome = true
  · cases hp : p.response with
    | none => rw [hp] at h1; simp at h1
    | some r =>
      simp only [metadataMapOf, h1, if_true, hp]
      exact responseBranchResult_length_le_one r
  · by_cases h2 : event_type = CBEventType.SUB_QUESTION ∧ p.sub_question.isSome = true
    · cases hq : p.sub_question with
      | none => rw [hq] at h2; simp at h2
      | some sq => simp [metadataMapOf, h1, h2, hq]
    · by_cases h3 : event_type = CBEventType.FUNCTION_CALL ∧ p.function_output.isSome = true
      · cases hq : p.function_output with
        | none => rw [hq] at h3; simp at h3
        | some fo => cases fo <;> simp [metadataMapOf, h1, h2, h3, hq]
      · simp [metadataMapOf, h1, h2, h3]

theorem metadataMapOf_ne_nil_kinds (event_type : CBEventType) (p : Payload)
    (h : metadataMapOf event_type p ≠ []) :
    p.response.isSome = true
    ∨ (event_type = CBEventType.SUB_QUESTION ∧ p.sub_question.isSome = true)
    ∨ (event_type = CBEventType.FUNCTION_CALL ∧ p.function_output.isSome = true) := by
  by_cases h1 : p.response.isSome = true
  · exact Or.inl h1
  · by_cases h2 : event_type = CBEventType.SUB_QUESTION ∧ p.sub_question.isSome = true
    · exact Or.inr (Or.inl h2)
    · by_cases h3 : event_type = CBEventType.FUNCTION_CALL ∧ p.function_output.isSome = true
      · exact Or.inr (Or.inr h3)
      · exact absurd (by simp [metadataMapOf, h1, h2, h3]) h

/-- C5 counterexample: a record emitted for a start event (has_ended = false)
that carries a metadata map — the classification never consults the
is_start_event flag, so a start SUB_QUESTION event whose payload carries the
sub-question key gets the metadata attached. -/
theorem C5_counterexample :
    async_on_event CBEventType.SUB_QUESTION (some c5SubQPayload) "e5" true false false
      = Except.ok (SendOutcome.sent c5Record)
    ∧ c5Record.has_ended = false
    ∧ c5Record.metadata_map ≠ none := by
  refine ⟨rfl, rfl, by decide⟩

/-- C5 (amended): metadata attachment never consults the has-ended flag: the
record built by async_on_event carries exactly the metadata computed from the
event type and payload alone (attached when that classification is
non-empty, absent when it is empty), so a start-event record whose payload
matches a recognized kind carries metadata too; and a non-empty map arises
only from the recognized kinds (citation-bearing response, sub-question,
function-call). -/
theorem C5_amended_metadata_independent_of_start
    (event_type : CBEventType) (p : Payload) (event_id : String)
    (is_start_event : Bool) (r : StreamedMessageSubProcess)
    (h : async_on_event event_type (some p) event_id is_start_event false false
        = Except.ok (SendOutcome.sent r)) :
    r.has_ended = !is_start_event
    ∧ r.metadata_map
        = (if metadataMapOf event_type p = [] then none
           else some (metadataMapOf event_type p))
    ∧ (r.metadata_map ≠ none →
        p.response.isSome = true
        ∨ (event_type = CBEventType.SUB_QUESTION ∧ p.sub_question.isSome = true)
        ∨ (event_type = CBEventType.FUNCTION_CALL ∧ p.function_output.isSome = true)) := by
  simp only [async_on_event, get_metadata_from_event, Bool.false_eq_true, if_false] at h
  cases h
  refine ⟨rfl, rfl, ?_⟩
  intro hne
  apply metadataMapOf_ne_nil_kinds event_type p
  intro hnil
  rw [hnil] at hne
  simp at hne

/-- C5 witness: the amended statement applied to the concrete start
SUB_QUESTION event. -/
theorem C5_amended_witness :
    c5Record.has_ended = !true
    ∧ c5Record.metadata_map
        = (if metadataMapOf CBEventType.SUB_QUESTION c5SubQPayload = [] then none
           else some (metadataMapOf CBEventType.SUB_QUESTION c5SubQPayload))
    ∧ (c5Record.metadata_map ≠ none →
        c5SubQPayload.response.isSome = true
        ∨ (CBEventType.SUB_QUESTION = CBEventType.SUB_QUESTION
            ∧ c5SubQPayload.sub_question.isSome = true)
        ∨ (CBEventType.SUB_QUESTION = CBEventType.FUNCTION_CALL
            ∧ c5SubQPayload.function_output.isSome = true)) :=
  C5_amended_metadata_independent_of_start CBEventType.SUB_QUESTION c5SubQPayload "e5"
    true c5Record rfl

/-- C6: event classification is exclusive and ordered: the metadata map built
from any present payload has at most one entry, and when the payload carries
a response object with extractable citations while also matching the
sub-question or function-call condition, the synthesized citation record is
what comes out — the sub-question and function-call classifications are not
applied. -/
theorem C6_classification_exclusive_ordered (event_type : CBEventType) (p : Payload)
    (is_start_event : Bool) :
    (∀ m, get_metadata_from_event event_type (some p) is_start_event = Except.ok m →
        m.length ≤ 1)
    ∧ (∀ response nodes resp,
        p.response = some response →
        response.source_nodes = some nodes →
        response.response = some resp →
        get_citations nodes ≠ [] →
        ((event_type = CBEventType.SUB_QUESTION ∧ p.sub_question.isSome = true)
          ∨ (event_type = CBEventType.FUNCTION_CALL ∧ p.function_output.isSome = true)) →
        get_metadata_from_event event_type (some p) is_start_event
          = Except.ok [("sub_questions", MetaEntry.subQuestionsList
              [SubQuestionItem.mk placeholderQuestion resp (get_citations nodes)])]) := by
  constructor
  · intro m hm
    simp only [get_metadata_from_event] at hm
    cases hm
    exact metadataMapOf_length_le_one event_type p
  · intro response nodes resp hr hs hresp hc _
    simp only [get_metadata_from_event]
    simp [metadataMapOf, hr, responseBranchResult, hs, hresp, hc]

/-- C6 witness: a payload with a citation-bearing response that also matches
the sub-question condition classifies as the citation record. -/
theorem C6_witness :
    get_metadata_from_event CBEventType.SUB_QUESTION (some c6Payload) false
      = Except.ok [("sub_questions", MetaEntry.subQuestionsList
          [SubQuestionItem.mk placeholderQuestion "An answer."
            (get_citations [c6Node])])] :=
  (C6_classification_exclusive_ordered CBEventType.SUB_QUESTION c6Payload false).2
    (ResponseVal.mk (some [c6Node]) (some "An answer.")) [c6Node] "An answer."
    rfl rfl rfl (by decide) (Or.inl ⟨rfl, by decide⟩)

theorem get_citations_append (l₁ l₂ : List SourceNode) :
    get_citations (l₁ ++ l₂) = get_citations l₁ ++ get_citations l₂ := by
  induction l₁ with
  | nil => rfl
  | cons n rest ih => simp [get_citations, ih]

/-- C7: during citation extraction, a node missing the document-identity
field or the page-label field, or whose page label does not parse with
int(), contributes zero citations and raises no error; extraction is a total
per-node pass, so the surrounding nodes are still processed; and a node with
page label "3" contributes page number 3 with the first 200 characters of
its text as the excerpt. -/
theorem C7_citation_extraction :
    (∀ n inner, n.node = some inner →
      (pyDictGet inner.metadata "db_document_id" = none
        ∨ pyDictGet inner.metadata "page_label" = none
        ∨ (∀ v, pyDictGet inner.metadata "page_label" = some v →
            pyIntOfMetaVal v = none)) →
      citationsOfNode n = [])
    ∧ (∀ pre post n, get_citations (pre ++ n :: post)
        = get_citations pre ++ (citationsOfNode n ++ get_citations post))
    ∧ (∀ n inner docId, n.node = some inner →
        pyDictGet inner.metadata "db_document_id" = some docId →
        pyDictGet inner.metadata "page_label" = some (MetaVal.vStr "3") →
        citationsOfNode n = [Citation.mk docId 3 ((inner.text.getD "").take 200)]) := by
  refine ⟨?_, ?_, ?_⟩
  · intro n inner hn hbad
    unfold citationsOfNode
    rw [hn]
    rcases hbad with hdoc | hpl | hparse
    · simp [hdoc]
    · simp [hpl]
    · cases hv : pyDictGet inner.metadata "page_label" with
      | none => simp [hv]
      | some v =>
        cases hd : pyDictGet inner.metadata "db_document_id" with
        | none => simp [hd]
        | some docId => simp [hd, hv, hparse v hv]
  · intro pre post n
    rw [get_citations_append]
    simp [get_citations]
  · intro n inner docId hn hdoc hpl
    have h3 : pyIntOfMetaVal (MetaVal.vStr "3") = some 3 := by decide
    unfold citationsOfNode
    rw [hn]
    simp [hdoc, hpl, h3]

/-- C7 witness: the three parts applied to a node missing page_label and a
node with page label "3". -/
theorem C7_witness :
    citationsOfNode c7BadNode = []
    ∧ get_citations ([c7BadNode] ++ c7GoodNode :: [])
        = get_citations [c7BadNode]
          ++ (citationsOfNode c7GoodNode ++ get_citations [])
    ∧ citationsOfNode c7GoodNode
        = [Citation.mk (MetaVal.vStr "doc-7") 3
            (((some "Node text." : Option String).getD "").take 200)] :=
  ⟨C7_citation_extraction.1 c7BadNode
      (NodeInner.mk [("db_document_id", MetaVal.vStr "doc-7")] (some "No page label."))
      rfl (Or.inr (Or.inl (by decide))),
   C7_citation_extraction.2.1 [c7BadNode] [] c7GoodNode,
   C7_citation_extraction.2.2 c7GoodNode
      (NodeInner.mk
        [("db_document_id", MetaVal.vStr "doc-7"), ("page_label", MetaVal.vStr "3")]
        (some "Node text."))
      (MetaVal.vStr "doc-7") rfl (by decide) (by decide)⟩

/-- C10 (code bug): translating a lifecycle event delivered with the declared
default payload=None does not complete without error: the first membership
test of get_metadata_from_event, EventPayload.RESPONSE in payload, raises
TypeError on None — for start and end events alike — so the spawned task dies
and no record is emitted at all. -/
theorem C10_none_payload_raises_TypeError (event_type : CBEventType)
    (is_start_event : Bool) (event_id : String) (closedAtCheck closedAtSend : Bool) :
    get_metadata_from_event event_type none is_start_event
      = Except.error PyErr.typeError
    ∧ async_on_event event_type none event_id is_start_event closedAtCheck closedAtSend
      = Except.error PyErr.typeError :=
  ⟨rfl, rfl⟩

/-! ## C2 / C8 : the streaming dispatcher -/

theorem pyStrip_eq_empty_iff (s : String) :
    pyStrip s = "" ↔ ∀ c ∈ s.data, isPySpace c = true := by
  unfold pyStrip
  rw [String.ext_iff]
  show (((s.data.dropWhile isPySpace).reverse.dropWhile isPySpace).reverse)
      = ([] : List Char) ↔ _
  rw [List.reverse_eq_nil_iff, List.dropWhile_eq_nil_iff]
  constructor
  · intro h c hc
    by_cases hcp : isPySpace c = true
    · exact hcp
    · have hsplit := List.takeWhile_append_dropWhile isPySpace s.data
      have hmem : c ∈ s.data.dropWhile isPySpace := by
        rcases List.mem_append.mp (hsplit ▸ hc) with htk | hdr
        · exact absurd (List.mem_takeWhile_imp htk) hcp
        · exact hdr
      exact h c (List.mem_reverse.mpr hmem)
  · intro h x hx
    exact h x ((List.dropWhile_sublist isPySpace).mem (List.mem_reverse.mp hx))

theorem concatTokens_append (l₁ l₂ : List String) :
    concatTokens (l₁ ++ l₂) = concatTokens l₁ ++ concatTokens l₂ := by
  induction l₁ with
  | nil => simp [concatTokens]
  | cons t rest ih => simp [concatTokens, ih, String.append_assoc]

theorem pyStrip_take_eq_empty (tokens : List String) (j : Nat)
    (h : pyStrip (concatTokens tokens) = "") :
    pyStrip (concatTokens (tokens.take j)) = "" := by
  rw [pyStrip_eq_empty_iff] at h ⊢
  intro c hc
  apply h
  have hsplit : concatTokens tokens
      = concatTokens (tokens.take j) ++ concatTokens (tokens.drop j) := by
    rw [← concatTokens_append, List.take_append_drop]
  rw [hsplit, String.data_append]
  exact List.mem_append.mpr (Or.inl hc)

theorem fallback_not_blank : pyStrip fallbackContent ≠ "" := by decide

theorem runStreamAux_close_before_end :
    ∀ (tokens : List String) (k i : Nat) (acc : String) (sent : List StreamedMessage),
      k < tokens.length →
      runStreamAux acc tokens (some (i + k)) i sent
        = DispatchResult.mk
            (sent ++ (List.range k).map
              (fun j => StreamedMessage.mk (acc ++ concatTokens (tokens.take (j + 1)))))
            DispatchOutcome.returnedEarly
  | [], k, i, acc, sent, hk => absurd hk (by simp)
  | t :: rest, 0, i, acc, sent, hk => by
    simp [runStreamAux]
  | t :: rest, k + 1, i, acc, sent, hk => by
    have hne : ¬ ((some (i + (k + 1)) : Option Nat) = some i) := by
      intro h
      exact absurd (Option.some.inj h) (by omega)
    have harith : i + (k + 1) = (i + 1) + k := by omega
    have hrec := runStreamAux_close_before_end rest k (i + 1) (acc ++ t)
      (sent ++ [StreamedMessage.mk (acc ++ t)]) (Nat.lt_of_succ_lt_succ hk)
    rw [harith] at hne ⊢
    simp only [runStreamAux, if_neg hne]
    rw [hrec]
    congr 1
    rw [List.range_succ_eq_map, List.map_cons, List.map_map]
    simp [concatTokens, List.take_succ_cons, String.append_assoc, Function.comp]

theorem runStreamAux_no_close :
    ∀ (tokens : List String) (i : Nat) (acc : String) (sent : List StreamedMessage),
      runStreamAux acc tokens none i sent
        = DispatchResult.mk
            (sent
              ++ (List.range tokens.length).map
                  (fun j => StreamedMessage.mk (acc ++ concatTokens (tokens.take (j + 1))))
              ++ (if pyStrip (acc ++ concatTokens tokens) = ""
                  then [StreamedMessage.mk fallbackContent] else []))
            DispatchOutcome.completed
  | [], i, acc, sent => by
    simp only [runStreamAux]
    by_cases h : pyStrip acc = ""
    · rw [if_pos h]
      simp [concatTokens, h]
    · rw [if_neg h]
      simp [concatTokens, h]
  | t :: rest, i, acc, sent => by
    have hrec := runStreamAux_no_close rest (i + 1) (acc ++ t)
      (sent ++ [StreamedMessage.mk (acc ++ t)])
    simp only [runStreamAux, reduceCtorEq, if_neg (by simp : ¬ ((none : Option Nat) = some i))]
    rw [hrec]
    rw [List.length_cons, List.range_succ_eq_map, List.map_cons, List.map_map]
    simp [concatTokens, List.take_succ_cons, String.append_assoc, Function.comp]

/-- C2 counterexample: the consumer closes the channel at the final generator
await of the token stream (still inside the async-for) and the accumulated
text is whitespace-only; the fallback send then executes against the closed
channel with no _closed guard and no except clause, and ClosedResourceError
propagates out of handle_chat_message instead of a clean return. -/
theorem C2_counterexample :
    runStream [" "] (some 1)
      = DispatchResult.mk [StreamedMessage.mk " "] DispatchOutcome.raisedClosed
    ∧ DispatchOutcome.raisedClosed ≠ DispatchOutcome.returnedEarly
    ∧ DispatchOutcome.raisedClosed ≠ DispatchOutcome.completed := by
  refine ⟨by decide, by decide, by decide⟩

/-- C2 (amended): if the consumer closes the channel at a token boundary
before the stream is exhausted, the loop returns cleanly on the _closed check
without raising, the delivered snapshots are exactly the ones sent before the
closure point and nothing after it, and the event-translation tasks drop and
log (never raise) sends attempted after closure — whether the closure shows
in the _closed check or only at the send, where ClosedResourceError is caught.
Only when closure lands at the final stream await with a blank accumulator
does the unguarded fallback send raise out of handle_chat_message. -/
theorem C2_amended_closure_mid_stream (tokens : List String) (k : Nat)
    (hk : k < tokens.length) :
    runStream tokens (some k)
      = DispatchResult.mk (snapshotsUpTo tokens k) DispatchOutcome.returnedEarly
    ∧ (∀ (event_type : CBEventType) (p : Payload) (event_id : String)
        (is_start_event closedAtSend : Bool),
        async_on_event event_type (some p) event_id is_start_event true closedAtSend
          = Except.ok SendOutcome.droppedClosed)
    ∧ (∀ (event_type : CBEventType) (p : Payload) (event_id : String)
        (is_start_event : Bool),
        async_on_event event_type (some p) event_id is_start_event false true
          = Except.ok SendOutcome.droppedException) := by
  refine ⟨?_, ?_, ?_⟩
  · have h := runStreamAux_close_before_end tokens k 0 "" [] hk
    rw [Nat.zero_add] at h
    unfold runStream snapshotsUpTo
    rw [h]
    congr 1
  · intro event_type p event_id is_start_event closedAtSend
    simp [async_on_event, get_metadata_from_event]
  · intro event_type p event_id is_start_event
    simp [async_on_event, get_metadata_from_event]

/-- C2 witness: closing at the boundary after the first of two tokens returns
cleanly with exactly the first snapshot delivered. -/
theorem C2_amended_witness :
    (1 < (["to", "kens"] : List String).length)
    ∧ runStream ["to", "kens"] (some 1)
        = DispatchResult.mk (snapshotsUpTo ["to", "kens"] 1) DispatchOutcome.returnedEarly :=
  ⟨by decide, (C2_amended_closure_mid_stream ["to", "kens"] 1 (by decide)).1⟩

/-- C8: when generation completes with the channel never closing, the
messages delivered are the full snapshot sequence followed by exactly one
fallback message with the fixed content when the accumulated text is blank,
and the snapshot sequence alone — no fallback — when it is not. -/
theorem C8_blank_fallback (tokens : List String) :
    (pyStrip (concatTokens tokens) = "" →
      runStream tokens none
        = DispatchResult.mk
            (snapshotsUpTo tokens tokens.length ++ [StreamedMessage.mk fallbackContent])
            DispatchOutcome.completed
      ∧ (snapshotsUpTo tokens tokens.length
          ++ [StreamedMessage.mk fallbackContent]).count
            (StreamedMessage.mk fallbackContent) = 1)
    ∧ (pyStrip (concatTokens tokens) ≠ "" →
      runStream tokens none
        = DispatchResult.mk (snapshotsUpTo tokens tokens.length)
            DispatchOutcome.completed) := by
  have h := runStreamAux_no_close tokens 0 "" []
  unfold runStream
  constructor
  · intro hb
    constructor
    · rw [h]
      congr 1
      rw [if_pos (by simpa using hb)]
      unfold snapshotsUpTo
      simp
    · rw [List.count_append]
      have hz : (snapshotsUpTo tokens tokens.length).count
          (StreamedMessage.mk fallbackContent) = 0 := by
        rw [List.count_eq_zero]
        intro hmem
        unfold snapshotsUpTo at hmem
        rcases List.mem_map.mp hmem with ⟨j, _, hj⟩
        have hcontent : concatTokens (tokens.take (j + 1)) = fallbackContent :=
          congrArg StreamedMessage.content hj
        have hblank := pyStrip_take_eq_empty tokens (j + 1) hb
        rw [hcontent] at hblank
        exact fallback_not_blank hblank
      rw [hz]
      decide
  · intro hb
    rw [h]
    congr 1
    rw [if_neg (by simpa using hb)]
    unfold snapshotsUpTo
    simp

/-- C8 witness: a whitespace-only stream gets the snapshots followed by the
single fallback message. -/
theorem C8_witness :
    pyStrip (concatTokens [" "]) = ""
    ∧ runStream [" "] none
        = DispatchResult.mk
            (snapshotsUpTo [" "] (List.length [" "]) ++ [StreamedMessage.mk fallbackContent])
            DispatchOutcome.completed :=
  ⟨by decide, ((C8_blank_fallback [" "]).1 (by decide)).1⟩

/-! ## C9 : tool naming -/

theorem mapExcept_ok_map {α β γ : Type} (f : α → Except PyErr β) (g : β → γ) (h : α → γ)
    (hfg : ∀ a b, f a = Except.ok b → g b = h a) :
    ∀ (l : List α) (ys : List β), mapExcept f l = Except.ok ys → ys.map g = l.map h
  | [], ys, heq => by
    simp only [mapExcept] at heq
    cases heq
    rfl
  | a :: l, ys, heq => by
    unfold mapExcept at heq
    cases hf : f a with
    | error e => rw [hf] at heq; cases heq
    | ok b =>
      rw [hf] at heq
      cases hm : mapExcept f l with
      | error e => rw [hm] at heq; cases heq
      | ok bs =>
        rw [hm] at heq
        cases heq
        simp only [List.map_cons]
        rw [hfg a b hf, mapExcept_ok_map f g h hfg l bs hm]

theorem build_doc_id_to_index_map_keys_nodup
    (ctxLoad : Except PyErr (List (String × VectorStoreIndex)))
    (buildIndex : DocumentSchema → Nat)
    (documents : List DocumentSchema) :
    (pyDictKeys (build_doc_id_to_index_map ctxLoad buildIndex documents)).Nodup := by
  unfold build_doc_id_to_index_map
  cases h : load_indices_from_storage
      (match ctxLoad with | Except.ok sc => sc | Except.error _ => [])
      (documents.map (fun d => d.id)) with
  | error e =>
    simp only [h]
    exact pyDictKeys_nodup_foldl _ _ documents [] (by simp [pyDictKeys])
  | ok indices =>
    simp only [h]
    unfold pyDictOfPairs
    exact pyDictKeys_nodup_foldl Prod.fst Prod.snd _ [] (by simp [pyDictKeys])

/-- C9: for every document id in the index map there is exactly one
qualitative (citation) query-engine tool named by that id, the qualitative
names carry no duplicate, and the quantitative tool set uses the same
document-id naming — one tool per SEC document, named by its id. -/
theorem C9_tool_naming
    (ctxLoad : Except PyErr (List (String × VectorStoreIndex)))
    (buildIndex : DocumentSchema → Nat)
    (conversation : Conversation)
    (qual quant : List QueryEngineTool)
    (h : get_chat_engine_tools ctxLoad buildIndex conversation = Except.ok (qual, quant)) :
    (∀ doc_id,
        doc_id ∈ pyDictKeys
          (build_doc_id_to_index_map ctxLoad buildIndex conversation.documents) →
        (qual.filter (fun t => t.metadata.name == doc_id)).length = 1)
    ∧ (qual.map (fun t => t.metadata.name)).Nodup
    ∧ quant.map (fun t => t.metadata.name)
        = (conversation.documents.filter (fun d => d.sec_metadata.isSome)).map
            (fun d => d.id) := by
  unfold get_chat_engine_tools at h
  dsimp only at h
  cases hmap : mapExcept (fun p =>
      match pyDictGet
        (pyDictOfPairs (conversation.documents.map (fun d => (d.id, d)))) p.1 with
      | some doc =>
        Except.ok (QueryEngineTool.mk (ToolMetadata.mk p.1 (build_description_for_document doc)))
      | none => Except.error PyErr.keyError)
      (build_doc_id_to_index_map ctxLoad buildIndex conversation.documents) with
  | error e => rw [hmap] at h; cases h
  | ok ts =>
    rw [hmap] at h
    cases h
    have hnames : qual.map (fun t => t.metadata.name)
        = pyDictKeys (build_doc_id_to_index_map ctxLoad buildIndex conversation.documents) := by
      have := mapExcept_ok_map
        (fun p : String × VectorStoreIndex =>
          match pyDictGet
            (pyDictOfPairs (conversation.documents.map (fun d => (d.id, d)))) p.1 with
          | some doc =>
            Except.ok (QueryEngineTool.mk (ToolMetadata.mk p.1 (build_description_for_document doc)))
          | none => Except.error PyErr.keyError)
        (fun t => t.metadata.name) Prod.fst
        (fun a b hab => by
          dsimp only at hab
          cases hga : pyDictGet
              (pyDictOfPairs (conversation.documents.map (fun d => (d.id, d)))) a.1 with
          | none => rw [hga] at hab; cases hab
          | some doc => rw [hga] at hab; cases hab; rfl)
        (build_doc_id_to_index_map ctxLoad buildIndex conversation.documents) qual hmap
      exact this
    have hnodup : (qual.map (fun t => t.metadata.name)).Nodup := by
      rw [hnames]
      exact build_doc_id_to_index_map_keys_nodup ctxLoad buildIndex conversation.documents
    refine ⟨?_, hnodup, ?_⟩
    · intro doc_id hmem
      have hmem2 : doc_id ∈ qual.map (fun t => t.metadata.name) := by
        rw [hnames]; exact hmem
      have hcount : (qual.map (fun t => t.metadata.name)).count doc_id = 1 :=
        List.count_eq_one_of_mem hnodup hmem2
      calc (qual.filter (fun t => t.metadata.name == doc_id)).length
          = qual.countP (fun t => t.metadata.name == doc_id) :=
            (List.countP_eq_length_filter _ _).symm
        _ = (qual.map (fun t => t.metadata.name)).countP (fun x => x == doc_id) := by
            rw [List.countP_map]
            rfl
        _ = (qual.map (fun t => t.metadata.name)).count doc_id :=
            (List.count_eq_countP _ _).symm
        _ = 1 := hcount
    · rw [List.map_map]
      apply List.map_congr_left
      intro d _
      rfl

/-- C9 witness: the tool pair built for a concrete two-document conversation
(one SEC filing, one plain document) on the full-rebuild path. -/
theorem C9_witness :
    (∀ doc_id,
        doc_id ∈ pyDictKeys
          (build_doc_id_to_index_map c9CtxLoad c9BuildIndex c9Conversation.documents) →
        ((c9Tools.1).filter (fun t => t.metadata.name == doc_id)).length = 1)
    ∧ ((c9Tools.1).map (fun t => t.metadata.name)).Nodup
    ∧ (c9Tools.2).map (fun t => t.metadata.name)
        = (c9Conversation.documents.filter (fun d => d.sec_metadata.isSome)).map
            (fun d => d.id) :=
  C9_tool_naming c9CtxLoad c9BuildIndex c9Conversation c9Tools.1 c9Tools.2 rfl
